import Mathlib

/-!
# OPC UA device support: iocsh command layer (UA SDK client)

A shallow embedding of `devOpcuaSup/UaSdk/iocshIntegrationUaSdk.cpp`:
the iocsh call functions `opcuaSetNamespaceUriCallFunc`,
`opcuaCreateSubscriptionCallFunc` and `opcuaDebugSessionCallFunc`, run
as pure functions on an explicit `World` (the two registries, the iocsh
variable `opcua_DefaultPublishInterval`, and the diagnostic output).

Conventions.
* A `char *` argument is an `Option String`: `none` is the null pointer.
* A C `int` is an `Int`; conversions to `unsigned int` are written with
  an explicit `% 2^32`.  iocsh hands over values of `[-2^31, 2^31)`.
* A C `double` is a `CDouble`; the code only compares it with zero and
  copies it.
-/

set_option autoImplicit false

namespace DevOpcua

/-! ## Machine values -/

/-- A C `double`: a finite value `m * 2^e`, an infinity, or a NaN. -/
inductive CDouble where
  | finite (m : Int) (e : Int)
  | inf (negative : Bool)
  | nan
deriving DecidableEq

namespace CDouble

/-- The C comparison `d < 0`. -/
def ltZero : CDouble → Bool
  | finite m _ => decide (m < 0)
  | inf negative => negative
  | nan => false

/-- The C comparison `d == 0`. -/
def eqZero : CDouble → Bool
  | finite m _ => decide (m = 0)
  | inf _ => false
  | nan => false

/-- The C comparison `d > 0`. -/
def gtZero : CDouble → Bool
  | finite m _ => decide (0 < m)
  | inf negative => !negative
  | nan => false

end CDouble

/-- The modulus of `unsigned int` arithmetic. -/
def UINT_MOD : Int := 4294967296

/-- The value of `std::numeric_limits<unsigned int>::max()`. -/
def UINT_MAX : Int := 4294967295

/-- Conversion of an `int` to `unsigned int`. -/
def toUnsigned (i : Int) : Int := i % UINT_MOD

/-- The C library `strchr(s, c) != NULL` for a non-null character `c`. -/
def strchr (s : String) (c : Char) : Bool := s.toList.contains c

/-! ## Data model -/

/-- The fields of a `SessionUaSdk` the call functions touch. -/
structure SessionUaSdk where
  /-- The unique session name (registry key). -/
  name : String
  /-- The field `debug`. -/
  debug : Int
  /-- The result of `isConnected()`. -/
  connected : Bool
  /-- The field `originalUriTable` (a `UaStringArray`). -/
  originalUriTable : List String
  /-- The namespace array the connected server exposes. -/
  serverNamespaceArray : List String
  /-- The effective runtime index of every configured namespace. -/
  namespaceIndex : List (Option Nat)
deriving DecidableEq

/-- The arguments the constructor of `SubscriptionUaSdk` is given. -/
structure SubscriptionUaSdk where
  /-- The subscription name (registry key). -/
  name : String
  /-- The owning session, identified by its name. -/
  session : String
  /-- The requested publishing interval (ms). -/
  publishingInterval : CDouble
  /-- The priority, an `epicsUInt8`. -/
  priority : Int
  /-- The debug level. -/
  debug : Int
deriving DecidableEq

/-- Diagnostic output of the call functions (`errlogPrintf`, `std::cerr`). -/
inductive Msg where
  | missingArgument (n : Nat)
  | invalidArgument (n : Nat)
  | subscriptionInUse (name : String)
  | sessionDoesNotExist (name : String)
  | noSubscriptionCreated
  | subscriptionConfigured (name : String)
  | nsAbortMissing (what : String)
  | nsAbortInvalidIndex
  | nsIndexExceeds (idx : Int)
  | nsNotConnected (name : String)
  | nsSessionNotFound (name : String)
  | exceptionCaught
deriving DecidableEq

/-- The process state the call functions act on. -/
structure World where
  /-- The session registry, in registration order. -/
  sessions : List SessionUaSdk
  /-- The subscription registry, in registration order. -/
  subscriptions : List SubscriptionUaSdk
  /-- The iocsh variable `opcua_DefaultPublishInterval`. -/
  opcua_DefaultPublishInterval : CDouble
  /-- Everything printed so far. -/
  output : List Msg
  /-- Every run of `updateNamespaceIndexes`: the session and its URI
  table at the time of the run. -/
  reconciliations : List (String × List String)
deriving DecidableEq

/-- Append a message to the diagnostic output. -/
def World.print (w : World) (m : Msg) : World :=
  { w with output := w.output ++ [m] }

/-! ## Registries -/

/-- Modelled from the spec: `Session::findSession` / `SessionUaSdk::findSession`
are missing from the sources; "exact-match lookup; fails with NotFound if no
Session with that name exists".  `none` stands for the exception. -/
def findSession (name : String) (sessions : List SessionUaSdk) : Option SessionUaSdk :=
  sessions.find? (fun s => s.name == name)

/-- Modelled from the spec: `Session::sessionExists` is missing from the
sources; "non-throwing existence probe". -/
def sessionExists (name : String) (sessions : List SessionUaSdk) : Bool :=
  sessions.any (fun s => s.name == name)

/-- Modelled from the spec: `Subscription::subscriptionExists` is missing from
the sources; existence probe on the subscription registry. -/
def subscriptionExists (name : String) (subs : List SubscriptionUaSdk) : Bool :=
  subs.any (fun s => s.name == name)

/-- Write back the session object that `findSession name` refers to. -/
def storeSession (name : String) (s' : SessionUaSdk) : List SessionUaSdk → List SessionUaSdk
  | [] => []
  | s :: rest => if s.name == name then s' :: rest else s :: storeSession name s' rest

/-- Modelled from the spec: the constructor of `SubscriptionUaSdk` is missing
from the sources; a constructed Subscription is registered under its name. -/
def newSubscriptionUaSdk (w : World) (sub : SubscriptionUaSdk) : World :=
  { w with subscriptions := w.subscriptions ++ [sub] }

/-- Position of the first occurrence of `u` in `live`, if any. -/
def liveIndex (u : String) (live : List String) : Option Nat :=
  if live.contains u then some (live.indexOf u) else none

/-- Modelled from the spec: `SessionUaSdk::updateNamespaceIndexes` is missing
from the sources; "for each configured entry `i` with URI `u`, search the
server's live array for `u`; if found at live index `j`, the table's effective
runtime mapping for `i` becomes `j`; if not found, the mapping for `i` is left
unresolved".  The URI table itself is not written. -/
def updateNamespaceIndexes (s : SessionUaSdk) : SessionUaSdk :=
  { s with namespaceIndex := s.originalUriTable.map (fun u => liveIndex u s.serverNamespaceArray) }

/-! ## opcuaSetNamespaceUri -/

/-- The argument buffer of `opcuaSetNamespaceUri`. -/
structure SetNamespaceUriArgs where
  /-- The value `args[0].sval`, the session name. -/
  arg0 : Option String
  /-- The value `args[1].sval`, the URI. -/
  arg1 : Option String
  /-- The value `args[2].ival`, the namespace index. -/
  arg2 : Int
deriving DecidableEq

/-- The call function `opcuaSetNamespaceUriCallFunc`. -/
def opcuaSetNamespaceUriCallFunc (w : World) (args : SetNamespaceUriArgs) : World :=
  match args.arg0 with
  | none => w.print (Msg.nsAbortMissing "Session name")
  | some sessionName =>
  match args.arg1 with
  | none => w.print (Msg.nsAbortMissing "URI")
  | some namespaceUri =>
  -- `args[2].ival == NULL`: the integer is compared with the constant 0
  if args.arg2 = 0 then w.print (Msg.nsAbortMissing "Namespace Index")
  else if args.arg2 < 0 ∨ toUnsigned args.arg2 > UINT_MAX then w.print Msg.nsAbortInvalidIndex
  else
    let g_namespaceIdx : Int := toUnsigned args.arg2
    match findSession sessionName w.sessions with
    | none => (w.print Msg.exceptionCaught).print (Msg.nsSessionNotFound sessionName)
    | some s =>
      if (s.originalUriTable.length : Int) < (g_namespaceIdx + 1) % UINT_MOD ∨ g_namespaceIdx < 0 then
        w.print (Msg.nsIndexExceeds g_namespaceIdx)
      else
        let s1 := { s with originalUriTable := s.originalUriTable.set g_namespaceIdx.toNat namespaceUri }
        if s1.connected then
          let s2 := updateNamespaceIndexes s1
          { w with sessions := storeSession sessionName s2 w.sessions,
                   reconciliations := w.reconciliations ++ [(sessionName, s1.originalUriTable)] }
        else
          { w with sessions := storeSession sessionName s1 w.sessions,
                   output := w.output ++ [Msg.nsNotConnected sessionName] }

/-! ## opcuaCreateSubscription -/

/-- The argument buffer of `opcuaCreateSubscription`. -/
structure CreateSubscriptionArgs where
  /-- The value `args[0].sval`, the subscription name. -/
  arg0 : Option String
  /-- The value `args[1].sval`, the session name. -/
  arg1 : Option String
  /-- The value `args[2].dval`, the publishing interval (ms). -/
  arg2 : CDouble
  /-- The value `args[3].ival`, the priority. -/
  arg3 : Int
  /-- The value `args[4].ival`, the debug level. -/
  arg4 : Int
deriving DecidableEq

/-- The checks of argument #1 (subscription name): what is printed, and
whether `ok` is left alone (`false`: `ok` is cleared). -/
def checkSubscriptionName (subs : List SubscriptionUaSdk) : Option String → List Msg × Bool
  | none => ([Msg.missingArgument 1], false)
  | some name =>
    if strchr name ' ' then ([Msg.invalidArgument 1], false)
    else if subscriptionExists name subs then ([Msg.subscriptionInUse name], false)
    else ([], true)

/-- The checks of argument #2 (session name): what is printed, and whether
`ok` is left alone. -/
def checkSessionName (sessions : List SessionUaSdk) : Option String → List Msg × Bool
  | none => ([Msg.missingArgument 2], false)
  | some name =>
    if strchr name ' ' then ([Msg.invalidArgument 2], false)
    else if !sessionExists name sessions then ([Msg.sessionDoesNotExist name], false)
    else ([], true)

/-- The check of argument #3 (publishing interval): what is printed, whether
`ok` is left alone, and the local `publishingInterval` (initially `0.`). -/
def checkPublishingInterval (dflt : CDouble) (dval : CDouble) : List Msg × Bool × CDouble :=
  if dval.ltZero then ([Msg.invalidArgument 3], false, CDouble.finite 0 0)
  else if dval.eqZero then ([], true, dflt)
  else ([], true, dval)

/-- The check of argument #4 (priority): what is printed, and the local
`priority` (initially `0`); the cast to `epicsUInt8` is the `% 256`. -/
def checkPriority (ival : Int) : List Msg × Int :=
  if ival < 0 ∨ ival > 255 then ([Msg.invalidArgument 4], 0)
  else ([], ival % 256)

/-- The check of argument #5 (debug level): what is printed, and the local
`debuglevel` (initially `0`). -/
def checkDebugLevel (ival : Int) : List Msg × Int :=
  if ival < 0 then ([Msg.invalidArgument 5], 0)
  else ([], ival)

/-- The call function `opcuaCreateSubscriptionCallFunc`. -/
def opcuaCreateSubscriptionCallFunc (w : World) (args : CreateSubscriptionArgs) : World :=
  let c1 := checkSubscriptionName w.subscriptions args.arg0
  let c2 := checkSessionName w.sessions args.arg1
  let c3 := checkPublishingInterval w.opcua_DefaultPublishInterval args.arg2
  let c4 := checkPriority args.arg3
  let c5 := checkDebugLevel args.arg4
  let ok := c1.2 && c2.2 && c3.2.1
  let publishingInterval := c3.2.2
  let priority := c4.2
  let debuglevel := c5.2
  let w1 : World := { w with output := w.output ++ (c1.1 ++ c2.1 ++ c3.1 ++ c4.1 ++ c5.1) }
  if ok then
    match args.arg0, args.arg1 with
    | some name, some sessionName =>
      match findSession sessionName w1.sessions with
      | some s =>
        let w2 := newSubscriptionUaSdk w1 ⟨name, s.name, publishingInterval, priority, debuglevel⟩
        if debuglevel ≠ 0 then w2.print (Msg.subscriptionConfigured name) else w2
      | none => w1.print Msg.exceptionCaught
    -- a null name cannot reach this point (`ok` would be cleared); building
    -- a `std::string` from it would throw
    | _, _ => w1.print Msg.exceptionCaught
  else
    w1.print Msg.noSubscriptionCreated

/-- The `ok` flag of `opcuaCreateSubscriptionCallFunc` after all checks. -/
def createOk (w : World) (args : CreateSubscriptionArgs) : Bool :=
  (checkSubscriptionName w.subscriptions args.arg0).2 &&
  (checkSessionName w.sessions args.arg1).2 &&
  (checkPublishingInterval w.opcua_DefaultPublishInterval args.arg2).2.1

/-! ## opcuaDebugSession -/

/-- The argument buffer of `opcuaDebugSession`. -/
structure DebugSessionArgs where
  /-- The value `args[0].sval`, the session name. -/
  arg0 : Option String
  /-- The value `args[1].ival`, the debug level. -/
  arg1 : Int
deriving DecidableEq

/-- The call function `opcuaDebugSessionCallFunc`. -/
def opcuaDebugSessionCallFunc (w : World) (args : DebugSessionArgs) : World :=
  match args.arg0 with
  -- building the `std::string` parameter from a null pointer throws
  | none => w.print Msg.exceptionCaught
  | some name =>
    match findSession name w.sessions with
    | none => w.print Msg.exceptionCaught
    | some s => { w with sessions := storeSession name { s with debug := args.arg1 } w.sessions }

/-! ## A concrete world -/

/-- A world with one connected session `S1` and one disconnected `S2`. -/
def demoWorld : World :=
  { sessions :=
      [ { name := "S1", debug := 0, connected := true,
          originalUriTable := ["http://opcfoundation.org/UA/", "urn:a", "urn:b"],
          serverNamespaceArray := ["http://opcfoundation.org/UA/", "urn:b", "urn:c"],
          namespaceIndex := [some 0, none, some 1] },
        { name := "S2", debug := 0, connected := false,
          originalUriTable := ["http://opcfoundation.org/UA/", "urn:a"],
          serverNamespaceArray := [],
          namespaceIndex := [none, none] } ],
    subscriptions := [],
    opcua_DefaultPublishInterval := CDouble.finite 100 0,
    output := [],
    reconciliations := [] }

/-! ## Registry lemmas -/

@[simp]
theorem print_sessions (w : World) (m : Msg) : (w.print m).sessions = w.sessions := rfl

@[simp]
theorem print_subscriptions (w : World) (m : Msg) :
    (w.print m).subscriptions = w.subscriptions := rfl

@[simp]
theorem print_reconciliations (w : World) (m : Msg) :
    (w.print m).reconciliations = w.reconciliations := rfl

@[simp]
theorem print_output (w : World) (m : Msg) : (w.print m).output = w.output ++ [m] := rfl

/-- A session that `findSession name` returns carries that name. -/
theorem findSession_name {name : String} {sessions : List SessionUaSdk} {s : SessionUaSdk}
    (h : findSession name sessions = some s) : s.name = name := by
  have := List.find?_some h
  simpa using this

/-- After the write-back, `findSession name` returns the object written. -/
theorem findSession_storeSession {name : String} {sessions : List SessionUaSdk}
    {s s' : SessionUaSdk} (h : findSession name sessions = some s) (hn : s'.name = name) :
    findSession name (storeSession name s' sessions) = some s' := by
  induction sessions with
  | nil => simp [findSession] at h
  | cons a rest ih =>
    by_cases ha : a.name = name
    · simp [findSession, storeSession, ha, hn]
    · have hrest : findSession name rest = some s := by
        simpa [findSession, List.find?_cons, ha] using h
      simpa [findSession, storeSession, List.find?_cons, ha] using ih hrest

/-- The write-back leaves every session of another name alone. -/
theorem findSession_storeSession_other {name other : String} {sessions : List SessionUaSdk}
    {s' : SessionUaSdk} (hn : s'.name = name) (hne : other ≠ name) :
    findSession other (storeSession name s' sessions) = findSession other sessions := by
  have hne' : ¬ name = other := fun h => hne h.symm
  induction sessions with
  | nil => simp [storeSession]
  | cons a rest ih =>
    by_cases ha : a.name = name
    · simp [findSession, storeSession, List.find?_cons, ha, hn, hne']
    · by_cases hb : a.name = other
      · simp [findSession, storeSession, List.find?_cons, hb, hne]
      · have ih' : List.find? (fun s => s.name == other) (storeSession name s' rest)
            = List.find? (fun s => s.name == other) rest := ih
        simp [findSession, storeSession, List.find?_cons, ha, hb, ih']

/-- The write-back keeps the number of registered sessions. -/
theorem length_storeSession (name : String) (s' : SessionUaSdk) (sessions : List SessionUaSdk) :
    (storeSession name s' sessions).length = sessions.length := by
  induction sessions with
  | nil => rfl
  | cons a rest ih =>
    by_cases ha : a.name = name <;> simp [storeSession, ha, ih]

/-- An existing session is found. -/
theorem findSession_of_sessionExists {name : String} {sessions : List SessionUaSdk}
    (h : sessionExists name sessions = true) : ∃ s, findSession name sessions = some s := by
  induction sessions with
  | nil => simp [sessionExists] at h
  | cons a rest ih =>
    by_cases ha : a.name = name
    · exact ⟨a, by simp [findSession, List.find?_cons, ha]⟩
    · have hrest : sessionExists name rest = true := by
        simpa [sessionExists, ha] using h
      obtain ⟨s, hs⟩ := ih hrest
      exact ⟨s, by simpa [findSession, List.find?_cons, ha] using hs⟩

/-- An `int` in `(0, 2^31)` keeps its value as `unsigned int`, also after `+ 1`. -/
theorem toUnsigned_of_pos {i : Int} (h0 : 0 < i) (h1 : i < 2147483648) :
    toUnsigned i = i ∧ (toUnsigned i + 1) % UINT_MOD = i + 1 := by
  unfold toUnsigned UINT_MOD
  have e1 : i % 4294967296 = i := Int.emod_eq_of_lt (by omega) (by omega)
  have e2 : (i + 1) % 4294967296 = i + 1 := Int.emod_eq_of_lt (by omega) (by omega)
  rw [e1]; exact ⟨rfl, e2⟩

/-- The converted index never exceeds `UINT_MAX`. -/
theorem toUnsigned_le_max (i : Int) : ¬ toUnsigned i > UINT_MAX := by
  unfold toUnsigned UINT_MOD UINT_MAX
  have := Int.emod_lt_of_pos i (show (0 : Int) < 4294967296 by decide)
  omega

/-- A value that is `> 0` is neither `< 0` nor `== 0`. -/
theorem CDouble.eqZero_of_gtZero {d : CDouble} (h : d.gtZero = true) : d.eqZero = false := by
  cases d with
  | finite m e =>
    simp only [CDouble.gtZero, decide_eq_true_eq] at h
    simp only [CDouble.eqZero, decide_eq_false_iff_not]
    omega
  | inf n => rfl
  | nan => rfl

/-! ## opcuaSetNamespaceUri: properties -/

/-- The command at a non-zero in-range index: slot `idx` of the session's
URI table is overwritten with the URI, nothing else in the table changes,
and `updateNamespaceIndexes` runs on the written table exactly when the
session is connected. -/
theorem setNamespaceUri_nonzero_index (w : World) (name uri : String) (idx : Int)
    (s : SessionUaSdk) (hfind : findSession name w.sessions = some s)
    (h0 : 0 < idx) (hlen : idx < s.originalUriTable.length) (hint : idx < 2147483648) :
    (∃ s', findSession name (opcuaSetNamespaceUriCallFunc w ⟨some name, some uri, idx⟩).sessions
          = some s' ∧
        s'.originalUriTable = s.originalUriTable.set idx.toNat uri) ∧
    (s.connected = true →
        (opcuaSetNamespaceUriCallFunc w ⟨some name, some uri, idx⟩).reconciliations
          = w.reconciliations ++ [(name, s.originalUriTable.set idx.toNat uri)]) ∧
    (s.connected = false →
        (opcuaSetNamespaceUriCallFunc w ⟨some name, some uri, idx⟩).reconciliations
          = w.reconciliations) := by
  obtain ⟨hu, hu1⟩ := toUnsigned_of_pos h0 hint
  rw [hu] at hu1
  have hname := findSession_name hfind
  have hne : idx ≠ 0 := by omega
  have hneg : ¬ idx < 0 := by omega
  have hmax : ¬ idx > UINT_MAX := by have := toUnsigned_le_max idx; rwa [hu] at this
  have hin : ¬ ((s.originalUriTable.length : Int) < idx + 1) := by omega
  cases hc : s.connected
  · simp only [opcuaSetNamespaceUriCallFunc, hne, hneg, hmax, hfind, hu, hu1, hin, hc,
      if_false, or_self]
    refine ⟨⟨_, findSession_storeSession hfind hname, rfl⟩, ?_, ?_⟩ <;> simp
  · simp only [opcuaSetNamespaceUriCallFunc, hne, hneg, hmax, hfind, hu, hu1, hin, hc,
      if_false, or_self]
    refine ⟨⟨_, findSession_storeSession hfind ?_, rfl⟩, ?_, ?_⟩
    · simpa [updateNamespaceIndexes] using hname
    · simp
    · simp

/-- C1: at namespace index 0 the command stops at its `args[2].ival == NULL`
test, for every world, session name and URI: it prints the "Missing Argument"
abort and writes nothing.  On `demoWorld`, whose session `S2` has a table of
length 2, slot 0 of `S2` therefore still holds its old URI and not `urn:x`. -/
theorem setNamespaceUri_index_zero_aborts :
    (∀ (w : World) (name uri : String),
        opcuaSetNamespaceUriCallFunc w ⟨some name, some uri, 0⟩
          = w.print (Msg.nsAbortMissing "Namespace Index")) ∧
    (findSession "S2" demoWorld.sessions).map (fun s => s.originalUriTable)
      = some ["http://opcfoundation.org/UA/", "urn:a"] ∧
    (findSession "S2"
        (opcuaSetNamespaceUriCallFunc demoWorld ⟨some "S2", some "urn:x", 0⟩).sessions).map
        (fun s => s.originalUriTable)
      = some ["http://opcfoundation.org/UA/", "urn:a"] := by
  refine ⟨fun w name uri => ?_, by decide, by decide⟩
  simp [opcuaSetNamespaceUriCallFunc]

/-- C2: for an existing session and a namespace index that is negative or not
below the length of the session's URI table, the command is rejected: its only
effect is one printed message; the session registry (every table, every slot)
is as before and no reconciliation is run. -/
theorem setNamespaceUri_out_of_range (w : World) (name : String) (uri : Option String)
    (idx : Int) (s : SessionUaSdk) (hfind : findSession name w.sessions = some s)
    (hint : idx < 2147483648)
    (hout : idx < 0 ∨ (s.originalUriTable.length : Int) ≤ idx) :
    (opcuaSetNamespaceUriCallFunc w ⟨some name, uri, idx⟩).sessions = w.sessions ∧
    (opcuaSetNamespaceUriCallFunc w ⟨some name, uri, idx⟩).reconciliations = w.reconciliations ∧
    ∃ m, (opcuaSetNamespaceUriCallFunc w ⟨some name, uri, idx⟩).output = w.output ++ [m] := by
  cases uri with
  | none => simp [opcuaSetNamespaceUriCallFunc]
  | some u =>
    by_cases h0 : idx = 0
    · simp [opcuaSetNamespaceUriCallFunc, h0]
    · by_cases hneg : idx < 0
      · simp [opcuaSetNamespaceUriCallFunc, h0, hneg]
      · have hpos : 0 < idx := by omega
        obtain ⟨hu, hu1⟩ := toUnsigned_of_pos hpos hint
        rw [hu] at hu1
        have hmax : ¬ idx > UINT_MAX := by have := toUnsigned_le_max idx; rwa [hu] at this
        have hlen : (s.originalUriTable.length : Int) < idx + 1 := by omega
        simp [opcuaSetNamespaceUriCallFunc, h0, hneg, hmax, hfind, hu, hu1, hlen]

/-- Witness for C2: index 2 on the two-entry table of `S2`. -/
theorem setNamespaceUri_out_of_range_witness :
    findSession "S2" demoWorld.sessions
      = some ⟨"S2", 0, false, ["http://opcfoundation.org/UA/", "urn:a"], [], [none, none]⟩ ∧
    (2 : Int) < 2147483648 ∧
    (([ "http://opcfoundation.org/UA/", "urn:a"] : List String).length : Int) ≤ 2 ∧
    (opcuaSetNamespaceUriCallFunc demoWorld ⟨some "S2", some "urn:x", 2⟩).sessions
      = demoWorld.sessions ∧
    (opcuaSetNamespaceUriCallFunc demoWorld ⟨some "S2", some "urn:x", 2⟩).reconciliations
      = demoWorld.reconciliations ∧
    ∃ m, (opcuaSetNamespaceUriCallFunc demoWorld ⟨some "S2", some "urn:x", 2⟩).output
      = demoWorld.output ++ [m] :=
  ⟨by decide, by decide, by decide,
    setNamespaceUri_out_of_range demoWorld "S2" (some "urn:x") 2
      ⟨"S2", 0, false, ["http://opcfoundation.org/UA/", "urn:a"], [], [none, none]⟩
      (by decide) (by decide) (Or.inr (by decide))⟩

/-- C9: at namespace index 0, which is in range for both sessions of
`demoWorld`, the command runs no reconciliation although `S1` is connected,
and does not store the URI although `S2` is merely not connected. -/
theorem setNamespaceUri_index_zero_no_reconciliation :
    (findSession "S1" demoWorld.sessions).map (fun s => (s.connected, s.originalUriTable.length))
      = some (true, 3) ∧
    (opcuaSetNamespaceUriCallFunc demoWorld ⟨some "S1", some "urn:c", 0⟩).reconciliations = [] ∧
    (findSession "S2" demoWorld.sessions).map (fun s => (s.connected, s.originalUriTable.length))
      = some (false, 2) ∧
    (opcuaSetNamespaceUriCallFunc demoWorld ⟨some "S2", some "urn:c", 0⟩).sessions
      = demoWorld.sessions ∧
    (opcuaSetNamespaceUriCallFunc demoWorld ⟨some "S1", some "urn:c", 1⟩).reconciliations
      = [("S1", ["http://opcfoundation.org/UA/", "urn:c", "urn:b"])] := by
  decide

/-! ## opcuaCreateSubscription: properties -/

/-- With `ok` cleared nothing is constructed: the registries are untouched and
"no subscription created" is the last thing printed. -/
theorem createSubscription_of_not_ok (w : World) (args : CreateSubscriptionArgs)
    (h : createOk w args = false) :
    (opcuaCreateSubscriptionCallFunc w args).subscriptions = w.subscriptions ∧
    (opcuaCreateSubscriptionCallFunc w args).sessions = w.sessions ∧
    (opcuaCreateSubscriptionCallFunc w args).output.getLast? = some Msg.noSubscriptionCreated := by
  unfold createOk at h
  simp only [opcuaCreateSubscriptionCallFunc, h]
  simp [World.print]

/-- With all name, session and interval checks passed, the Subscription is
constructed from the locals and appended to the registry. -/
theorem createSubscription_of_ok (w : World) (name sess : String) (d : CDouble) (p dbg : Int)
    (hname : strchr name ' ' = false)
    (hunused : subscriptionExists name w.subscriptions = false)
    (hsess : strchr sess ' ' = false)
    (hex : sessionExists sess w.sessions = true)
    (hd : d.ltZero = false) :
    (opcuaCreateSubscriptionCallFunc w ⟨some name, some sess, d, p, dbg⟩).subscriptions
      = w.subscriptions ++
        [⟨name, sess, (checkPublishingInterval w.opcua_DefaultPublishInterval d).2.2,
          (checkPriority p).2, (checkDebugLevel dbg).2⟩] := by
  obtain ⟨s, hs⟩ := findSession_of_sessionExists hex
  have hsn := findSession_name hs
  have hok : ((checkSubscriptionName w.subscriptions (some name)).2 &&
      (checkSessionName w.sessions (some sess)).2 &&
      (checkPublishingInterval w.opcua_DefaultPublishInterval d).2.1) = true := by
    simp only [checkSubscriptionName, checkSessionName, checkPublishingInterval, hname, hunused,
      hsess, hex, hd]
    cases d.eqZero <;> simp
  simp only [opcuaCreateSubscriptionCallFunc, hok, hs, if_true]
  split <;> simp [newSubscriptionUaSdk, World.print, hsn]

/-- Whatever the arguments, the call either leaves the subscription registry
alone or appends one Subscription built from the checked locals, and the
latter only with `ok` set. -/
theorem createSubscription_cases (w : World) (args : CreateSubscriptionArgs) :
    (opcuaCreateSubscriptionCallFunc w args).subscriptions = w.subscriptions ∨
    (createOk w args = true ∧ ∃ name sess,
      (opcuaCreateSubscriptionCallFunc w args).subscriptions
        = w.subscriptions ++
          [⟨name, sess, (checkPublishingInterval w.opcua_DefaultPublishInterval args.arg2).2.2,
            (checkPriority args.arg3).2, (checkDebugLevel args.arg4).2⟩]) := by
  cases hok : createOk w args with
  | false => exact Or.inl (createSubscription_of_not_ok w args hok).1
  | true =>
    unfold createOk at hok
    simp only [opcuaCreateSubscriptionCallFunc, hok, if_true]
    split
    · next name sessionName _ _ =>
      split
      · next s _ =>
        right
        refine ⟨trivial, name, s.name, ?_⟩
        split <;> simp [newSubscriptionUaSdk, World.print]
      · left; simp
    · left; simp

/-- C3 (as stated, refuted): on `demoWorld`, whose subscription registry is
empty, a call with the empty subscription name constructs and registers a
Subscription, and so does a call whose name contains a tab or a newline. -/
theorem createSubscription_empty_or_tab_name_constructs :
    demoWorld.subscriptions = [] ∧
    (opcuaCreateSubscriptionCallFunc demoWorld
        ⟨some "", some "S1", CDouble.finite 500 0, 0, 0⟩).subscriptions
      = [⟨"", "S1", CDouble.finite 500 0, 0, 0⟩] ∧
    (opcuaCreateSubscriptionCallFunc demoWorld
        ⟨some "a\tb", some "S1", CDouble.finite 500 0, 0, 0⟩).subscriptions
      = [⟨"a\tb", "S1", CDouble.finite 500 0, 0, 0⟩] ∧
    (opcuaCreateSubscriptionCallFunc demoWorld
        ⟨some "a\nb", some "S1", CDouble.finite 500 0, 0, 0⟩).subscriptions
      = [⟨"a\nb", "S1", CDouble.finite 500 0, 0, 0⟩] := by
  decide

/-- C3 (amended): for every call whose subscription name is missing (a null
pointer) or contains a space character, no Subscription is constructed or
registered, whatever the other arguments are; "no subscription created" is
reported. -/
theorem createSubscription_missing_or_spaced_name (w : World) (args : CreateSubscriptionArgs)
    (h : args.arg0 = none ∨ ∃ n, args.arg0 = some n ∧ ' ' ∈ n.toList) :
    (opcuaCreateSubscriptionCallFunc w args).subscriptions = w.subscriptions ∧
    (opcuaCreateSubscriptionCallFunc w args).sessions = w.sessions ∧
    (opcuaCreateSubscriptionCallFunc w args).output.getLast? = some Msg.noSubscriptionCreated := by
  apply createSubscription_of_not_ok
  have h1 : (checkSubscriptionName w.subscriptions args.arg0).2 = false := by
    rcases h with h | ⟨n, hn, hsp⟩
    · simp [h, checkSubscriptionName]
    · have : strchr n ' ' = true := by simpa [strchr] using hsp
      simp [hn, checkSubscriptionName, this]
  simp [createOk, h1]

/-- Witness for C3 (amended): the name `my sub`. -/
theorem createSubscription_missing_or_spaced_name_witness :
    ' ' ∈ "my sub".toList ∧
    (opcuaCreateSubscriptionCallFunc demoWorld
        ⟨some "my sub", some "S1", CDouble.finite 500 0, 0, 0⟩).subscriptions
      = demoWorld.subscriptions ∧
    (opcuaCreateSubscriptionCallFunc demoWorld
        ⟨some "my sub", some "S1", CDouble.finite 500 0, 0, 0⟩).sessions = demoWorld.sessions ∧
    (opcuaCreateSubscriptionCallFunc demoWorld
        ⟨some "my sub", some "S1", CDouble.finite 500 0, 0, 0⟩).output.getLast?
      = some Msg.noSubscriptionCreated :=
  ⟨by decide,
    createSubscription_missing_or_spaced_name demoWorld
      ⟨some "my sub", some "S1", CDouble.finite 500 0, 0, 0⟩
      (Or.inr ⟨"my sub", rfl, by decide⟩)⟩

/-- C5: for every call whose session name is not the name of a registered
session (a null pointer included), no Subscription is constructed: the
subscription registry, and the session registry, are identical before and
after, whatever the other arguments are. -/
theorem createSubscription_unknown_session (w : World) (args : CreateSubscriptionArgs)
    (h : ∀ s ∈ w.sessions, args.arg1 ≠ some s.name) :
    (opcuaCreateSubscriptionCallFunc w args).subscriptions = w.subscriptions ∧
    (opcuaCreateSubscriptionCallFunc w args).sessions = w.sessions ∧
    (opcuaCreateSubscriptionCallFunc w args).output.getLast? = some Msg.noSubscriptionCreated := by
  apply createSubscription_of_not_ok
  have h2 : (checkSessionName w.sessions args.arg1).2 = false := by
    cases hn : args.arg1 with
    | none => simp [checkSessionName]
    | some n =>
      have hex : sessionExists n w.sessions = false := by
        simp only [sessionExists, List.any_eq_false]
        intro s hs hbeq
        have hsn : s.name = n := by simpa using hbeq
        exact h s hs (by rw [hn, hsn])
      simp only [checkSessionName, hex]
      cases strchr n ' ' <;> simp
  simp [createOk, h2]

/-- Witness for C5: session name `S9` on `demoWorld`, which has `S1` and `S2`. -/
theorem createSubscription_unknown_session_witness :
    sessionExists "S9" demoWorld.sessions = false ∧
    (opcuaCreateSubscriptionCallFunc demoWorld
        ⟨some "sub1", some "S9", CDouble.finite 500 0, 0, 0⟩).subscriptions
      = demoWorld.subscriptions ∧
    (opcuaCreateSubscriptionCallFunc demoWorld
        ⟨some "sub1", some "S9", CDouble.finite 500 0, 0, 0⟩).sessions = demoWorld.sessions ∧
    (opcuaCreateSubscriptionCallFunc demoWorld
        ⟨some "sub1", some "S9", CDouble.finite 500 0, 0, 0⟩).output.getLast?
      = some Msg.noSubscriptionCreated :=
  ⟨by decide,
    createSubscription_unknown_session demoWorld
      ⟨some "sub1", some "S9", CDouble.finite 500 0, 0, 0⟩ (by decide)⟩

/-- C6 (as stated, refuted): on `demoWorld`, with the unused name `sub1`, the
existing session `S1` and the publishing interval `-1`, no Subscription is
constructed: the registry stays empty. -/
theorem createSubscription_negative_interval_rejected :
    subscriptionExists "sub1" demoWorld.subscriptions = false ∧
    sessionExists "S1" demoWorld.sessions = true ∧
    (CDouble.finite (-1) 0).ltZero = true ∧
    (opcuaCreateSubscriptionCallFunc demoWorld
        ⟨some "sub1", some "S1", CDouble.finite (-1) 0, 0, 0⟩).subscriptions = [] ∧
    (opcuaCreateSubscriptionCallFunc demoWorld
        ⟨some "sub1", some "S1", CDouble.finite (-1) 0, 0, 0⟩).output
      = [Msg.invalidArgument 3, Msg.noSubscriptionCreated] := by
  decide

/-- C6 (amended): for every call with a negative publishing interval, a valid
unused subscription name and an existing session included, creation is
aborted: the invalid interval is reported ("invalid argument #3", printed
after the messages of the two name checks and before those of the priority and
debug-level checks), no Subscription is constructed or registered, and "no
subscription created" is reported last. -/
theorem createSubscription_negative_interval (w : World) (args : CreateSubscriptionArgs)
    (h : args.arg2.ltZero = true) :
    (opcuaCreateSubscriptionCallFunc w args).subscriptions = w.subscriptions ∧
    (opcuaCreateSubscriptionCallFunc w args).sessions = w.sessions ∧
    (opcuaCreateSubscriptionCallFunc w args).output
      = w.output ++
        ((checkSubscriptionName w.subscriptions args.arg0).1 ++
          (checkSessionName w.sessions args.arg1).1 ++
          [Msg.invalidArgument 3] ++
          (checkPriority args.arg3).1 ++ (checkDebugLevel args.arg4).1) ++
        [Msg.noSubscriptionCreated] ∧
    Msg.invalidArgument 3 ∈ ((opcuaCreateSubscriptionCallFunc w args).output.drop w.output.length) ∧
    (opcuaCreateSubscriptionCallFunc w args).output.getLast? = some Msg.noSubscriptionCreated := by
  have hok : createOk w args = false := by
    simp [createOk, checkPublishingInterval, h]
  obtain ⟨h1, h2, h3⟩ := createSubscription_of_not_ok w args hok
  have hout : (opcuaCreateSubscriptionCallFunc w args).output
      = w.output ++
        ((checkSubscriptionName w.subscriptions args.arg0).1 ++
          (checkSessionName w.sessions args.arg1).1 ++
          [Msg.invalidArgument 3] ++
          (checkPriority args.arg3).1 ++ (checkDebugLevel args.arg4).1) ++
        [Msg.noSubscriptionCreated] := by
    unfold createOk at hok
    simp only [opcuaCreateSubscriptionCallFunc, hok]
    simp [World.print, checkPublishingInterval, h]
  refine ⟨h1, h2, hout, ?_, h3⟩
  rw [hout]
  simp

/-- Witness for C6 (amended): interval `-1` with name `sub1` and session `S1`
on `demoWorld`, whose output is empty: exactly the invalid interval and "no
subscription created" are printed. -/
theorem createSubscription_negative_interval_witness :
    (CDouble.finite (-1) 0).ltZero = true ∧
    (opcuaCreateSubscriptionCallFunc demoWorld
        ⟨some "sub1", some "S1", CDouble.finite (-1) 0, 0, 0⟩).subscriptions
      = demoWorld.subscriptions ∧
    (opcuaCreateSubscriptionCallFunc demoWorld
        ⟨some "sub1", some "S1", CDouble.finite (-1) 0, 0, 0⟩).sessions = demoWorld.sessions ∧
    (opcuaCreateSubscriptionCallFunc demoWorld
        ⟨some "sub1", some "S1", CDouble.finite (-1) 0, 0, 0⟩).output
      = demoWorld.output ++
        ((checkSubscriptionName demoWorld.subscriptions (some "sub1")).1 ++
          (checkSessionName demoWorld.sessions (some "S1")).1 ++
          [Msg.invalidArgument 3] ++
          (checkPriority 0).1 ++ (checkDebugLevel 0).1) ++
        [Msg.noSubscriptionCreated] ∧
    Msg.invalidArgument 3 ∈
      ((opcuaCreateSubscriptionCallFunc demoWorld
        ⟨some "sub1", some "S1", CDouble.finite (-1) 0, 0, 0⟩).output.drop
        demoWorld.output.length) ∧
    (opcuaCreateSubscriptionCallFunc demoWorld
        ⟨some "sub1", some "S1", CDouble.finite (-1) 0, 0, 0⟩).output.getLast?
      = some Msg.noSubscriptionCreated :=
  ⟨by decide,
    createSubscription_negative_interval demoWorld
      ⟨some "sub1", some "S1", CDouble.finite (-1) 0, 0, 0⟩ (by decide)⟩

/-- C7: with a subscription name free of spaces and unused, an existing
session (its name free of spaces) and a publishing interval that is not
negative, a Subscription is constructed and registered for every priority and
every debug level.  It gets the given priority when that lies in `[0,255]` and
`0` otherwise, the given debug level when that is `>= 0` and `0` otherwise. -/
theorem createSubscription_priority_debug (w : World) (name sess : String) (d : CDouble)
    (p dbg : Int)
    (hname : ' ' ∉ name.toList)
    (hunused : ∀ sub ∈ w.subscriptions, sub.name ≠ name)
    (hsess : ' ' ∉ sess.toList)
    (hex : ∃ s ∈ w.sessions, s.name = sess)
    (hd : d.ltZero = false) :
    (opcuaCreateSubscriptionCallFunc w ⟨some name, some sess, d, p, dbg⟩).subscriptions
      = w.subscriptions ++
        [⟨name, sess, if d.eqZero then w.opcua_DefaultPublishInterval else d,
          if 0 ≤ p ∧ p ≤ 255 then p else 0, if 0 ≤ dbg then dbg else 0⟩] := by
  have h1 : strchr name ' ' = false := by simpa [strchr] using hname
  have h2 : subscriptionExists name w.subscriptions = false := by
    simp only [subscriptionExists, List.any_eq_false]
    intro sub hsub hbeq
    exact hunused sub hsub (by simpa using hbeq)
  have h3 : strchr sess ' ' = false := by simpa [strchr] using hsess
  have h4 : sessionExists sess w.sessions = true := by
    obtain ⟨s, hs, hsn⟩ := hex
    simp only [sessionExists, List.any_eq_true]
    exact ⟨s, hs, by simp [hsn]⟩
  rw [createSubscription_of_ok w name sess d p dbg h1 h2 h3 h4 hd]
  have e3 : (checkPublishingInterval w.opcua_DefaultPublishInterval d).2.2
      = if d.eqZero then w.opcua_DefaultPublishInterval else d := by
    simp only [checkPublishingInterval, hd]
    cases d.eqZero <;> simp
  have e4 : (checkPriority p).2 = if 0 ≤ p ∧ p ≤ 255 then p else 0 := by
    unfold checkPriority
    by_cases hp : 0 ≤ p ∧ p ≤ 255
    · have hp' : ¬ (p < 0 ∨ p > 255) := by omega
      have hm : p % 256 = p := Int.emod_eq_of_lt hp.1 (by omega)
      simp [hp, hp', hm]
    · have hp' : p < 0 ∨ p > 255 := by omega
      simp [hp, hp']
  have e5 : (checkDebugLevel dbg).2 = if 0 ≤ dbg then dbg else 0 := by
    unfold checkDebugLevel
    by_cases hg : 0 ≤ dbg
    · have hg' : ¬ dbg < 0 := by omega
      simp [hg, hg']
    · have hg' : dbg < 0 := by omega
      simp [hg, hg']
  rw [e3, e4, e5]

/-- Witness for C7: priority 300 and debug level -2 on `demoWorld`. -/
theorem createSubscription_priority_debug_witness :
    ' ' ∉ "sub1".toList ∧ subscriptionExists "sub1" demoWorld.subscriptions = false ∧
    ' ' ∉ "S1".toList ∧ sessionExists "S1" demoWorld.sessions = true ∧
    (CDouble.finite 500 0).ltZero = false ∧
    (opcuaCreateSubscriptionCallFunc demoWorld
        ⟨some "sub1", some "S1", CDouble.finite 500 0, 300, -2⟩).subscriptions
      = demoWorld.subscriptions ++
        [⟨"sub1", "S1",
          if (CDouble.finite 500 0).eqZero then demoWorld.opcua_DefaultPublishInterval
          else CDouble.finite 500 0,
          if (0 : Int) ≤ 300 ∧ (300 : Int) ≤ 255 then 300 else 0,
          if (0 : Int) ≤ -2 then -2 else 0⟩] :=
  ⟨by decide, by decide, by decide, by decide, by decide,
    createSubscription_priority_debug demoWorld "sub1" "S1" (CDouble.finite 500 0) 300 (-2)
      (by decide) (by decide) (by decide) (by decide) (by decide)⟩

/-- C8: whenever a call constructs a Subscription (the registry afterwards is
the registry before plus one Subscription), the publishing interval of that
Subscription is the configured default when the interval argument is `0`, and
the interval argument itself when that is greater than `0`. -/
theorem createSubscription_interval (w : World) (args : CreateSubscriptionArgs)
    (sub : SubscriptionUaSdk)
    (h : (opcuaCreateSubscriptionCallFunc w args).subscriptions = w.subscriptions ++ [sub]) :
    (args.arg2.eqZero = true → sub.publishingInterval = w.opcua_DefaultPublishInterval) ∧
    (args.arg2.gtZero = true → sub.publishingInterval = args.arg2) := by
  rcases createSubscription_cases w args with hsame | ⟨hok, name, sess, hnew⟩
  · rw [hsame] at h
    have := congrArg List.length h
    simp at this
  · rw [hnew] at h
    have hsub := List.append_cancel_left h
    simp only [List.cons.injEq, and_true] at hsub
    have hlt : args.arg2.ltZero = false := by
      cases hl : args.arg2.ltZero with
      | false => rfl
      | true => simp [createOk, checkPublishingInterval, hl] at hok
    subst hsub
    refine ⟨fun hz => ?_, fun hg => ?_⟩
    · simp [checkPublishingInterval, hlt, hz]
    · simp [checkPublishingInterval, hlt, CDouble.eqZero_of_gtZero hg]

/-- Witness for C8: on `demoWorld`, whose default is `100`, interval `0`
yields `100` and interval `250` yields `250`. -/
theorem createSubscription_interval_witness :
    ((opcuaCreateSubscriptionCallFunc demoWorld
          ⟨some "sub1", some "S1", CDouble.finite 0 0, 0, 0⟩).subscriptions
        = demoWorld.subscriptions ++ [⟨"sub1", "S1", CDouble.finite 100 0, 0, 0⟩] ∧
      (CDouble.finite 0 0).eqZero = true ∧
      CDouble.finite 100 0 = demoWorld.opcua_DefaultPublishInterval) ∧
    ((opcuaCreateSubscriptionCallFunc demoWorld
          ⟨some "sub1", some "S1", CDouble.finite 250 0, 0, 0⟩).subscriptions
        = demoWorld.subscriptions ++ [⟨"sub1", "S1", CDouble.finite 250 0, 0, 0⟩] ∧
      (CDouble.finite 250 0).gtZero = true ∧
      (SubscriptionUaSdk.mk "sub1" "S1" (CDouble.finite 250 0) 0 0).publishingInterval
        = CDouble.finite 250 0) :=
  ⟨⟨by decide, by decide,
      (createSubscription_interval demoWorld ⟨some "sub1", some "S1", CDouble.finite 0 0, 0, 0⟩
        ⟨"sub1", "S1", CDouble.finite 100 0, 0, 0⟩ (by decide)).1 (by decide)⟩,
    ⟨by decide, by decide,
      (createSubscription_interval demoWorld ⟨some "sub1", some "S1", CDouble.finite 250 0, 0, 0⟩
        ⟨"sub1", "S1", CDouble.finite 250 0, 0, 0⟩ (by decide)).2 (by decide)⟩⟩

/-- C4: with a subscription name free of spaces and unused, an existing
session and an interval that is not negative, the first call constructs and
registers a Subscription of that name; every second call with the same name,
whatever its other arguments, constructs nothing, and the registry then holds
exactly one entry of that name. -/
theorem createSubscription_twice (w : World) (name sess : String) (d : CDouble) (p dbg : Int)
    (args2 : CreateSubscriptionArgs) (hsame : args2.arg0 = some name)
    (hname : ' ' ∉ name.toList)
    (hunused : ∀ sub ∈ w.subscriptions, sub.name ≠ name)
    (hsess : ' ' ∉ sess.toList)
    (hex : ∃ s ∈ w.sessions, s.name = sess)
    (hd : d.ltZero = false) :
    (∃ sub, sub.name = name ∧
      (opcuaCreateSubscriptionCallFunc w ⟨some name, some sess, d, p, dbg⟩).subscriptions
        = w.subscriptions ++ [sub]) ∧
    (opcuaCreateSubscriptionCallFunc
        (opcuaCreateSubscriptionCallFunc w ⟨some name, some sess, d, p, dbg⟩) args2).subscriptions
      = (opcuaCreateSubscriptionCallFunc w ⟨some name, some sess, d, p, dbg⟩).subscriptions ∧
    ((opcuaCreateSubscriptionCallFunc
        (opcuaCreateSubscriptionCallFunc w ⟨some name, some sess, d, p, dbg⟩) args2).subscriptions.filter
      (fun sub => sub.name = name)).length = 1 := by
  have h1 : strchr name ' ' = false := by simpa [strchr] using hname
  have h2 : subscriptionExists name w.subscriptions = false := by
    simp only [subscriptionExists, List.any_eq_false]
    intro sub hsub hbeq
    exact hunused sub hsub (by simpa using hbeq)
  have h3 : strchr sess ' ' = false := by simpa [strchr] using hsess
  have h4 : sessionExists sess w.sessions = true := by
    obtain ⟨s, hs, hsn⟩ := hex
    simp only [sessionExists, List.any_eq_true]
    exact ⟨s, hs, by simp [hsn]⟩
  have hfirst := createSubscription_of_ok w name sess d p dbg h1 h2 h3 h4 hd
  have hused : subscriptionExists name
      (opcuaCreateSubscriptionCallFunc w ⟨some name, some sess, d, p, dbg⟩).subscriptions
        = true := by
    rw [hfirst]; simp [subscriptionExists]
  have hnot : createOk (opcuaCreateSubscriptionCallFunc w ⟨some name, some sess, d, p, dbg⟩)
      args2 = false := by
    have : (checkSubscriptionName
        (opcuaCreateSubscriptionCallFunc w ⟨some name, some sess, d, p, dbg⟩).subscriptions
        args2.arg0).2 = false := by
      simp [hsame, checkSubscriptionName, h1, hused]
    simp [createOk, this]
  have hsecond := (createSubscription_of_not_ok _ args2 hnot).1
  refine ⟨⟨_, rfl, hfirst⟩, hsecond, ?_⟩
  rw [hsecond, hfirst, List.filter_append]
  have hnone : w.subscriptions.filter (fun sub => sub.name = name) = [] := by
    rw [List.filter_eq_nil_iff]
    intro sub hsub
    simpa using hunused sub hsub
  simp [hnone]

/-- Witness for C4: `sub1` on session `S1` of `demoWorld`, issued twice. -/
theorem createSubscription_twice_witness :
    ' ' ∉ "sub1".toList ∧ subscriptionExists "sub1" demoWorld.subscriptions = false ∧
    ' ' ∉ "S1".toList ∧ sessionExists "S1" demoWorld.sessions = true ∧
    (CDouble.finite 500 0).ltZero = false ∧
    (∃ sub, sub.name = "sub1" ∧
      (opcuaCreateSubscriptionCallFunc demoWorld
          ⟨some "sub1", some "S1", CDouble.finite 500 0, 0, 0⟩).subscriptions
        = demoWorld.subscriptions ++ [sub]) ∧
    (opcuaCreateSubscriptionCallFunc
        (opcuaCreateSubscriptionCallFunc demoWorld
          ⟨some "sub1", some "S1", CDouble.finite 500 0, 0, 0⟩)
        ⟨some "sub1", some "S1", CDouble.finite 500 0, 0, 0⟩).subscriptions
      = (opcuaCreateSubscriptionCallFunc demoWorld
          ⟨some "sub1", some "S1", CDouble.finite 500 0, 0, 0⟩).subscriptions ∧
    ((opcuaCreateSubscriptionCallFunc
        (opcuaCreateSubscriptionCallFunc demoWorld
          ⟨some "sub1", some "S1", CDouble.finite 500 0, 0, 0⟩)
        ⟨some "sub1", some "S1", CDouble.finite 500 0, 0, 0⟩).subscriptions.filter
      (fun sub => sub.name = "sub1")).length = 1 :=
  ⟨by decide, by decide, by decide, by decide, by decide,
    createSubscription_twice demoWorld "sub1" "S1" (CDouble.finite 500 0) 0 0
      ⟨some "sub1", some "S1", CDouble.finite 500 0, 0, 0⟩ rfl
      (by decide) (by decide) (by decide) (by decide) (by decide)⟩

/-! ## opcuaDebugSession: properties -/

/-- C10 (as stated, refuted): on `demoWorld`, where the debug level of `S2`
is `0`, the command with level `-1` stores `-1` as the debug level of `S2`
and prints nothing. -/
theorem debugSession_negative_level_stored :
    (findSession "S2" demoWorld.sessions).map (fun s => s.debug) = some 0 ∧
    (findSession "S2" (opcuaDebugSessionCallFunc demoWorld ⟨some "S2", -1⟩).sessions).map
        (fun s => s.debug) = some (-1) ∧
    (opcuaDebugSessionCallFunc demoWorld ⟨some "S2", -1⟩).output = demoWorld.output := by
  decide

/-- C10 (amended): for every existing session and every level, negative or
not, the command sets that session's debug level to the given level; it
reports nothing and leaves every other session as it was. -/
theorem debugSession_sets_level (w : World) (name : String) (level : Int) (s : SessionUaSdk)
    (hfind : findSession name w.sessions = some s) :
    findSession name (opcuaDebugSessionCallFunc w ⟨some name, level⟩).sessions
      = some { s with debug := level } ∧
    (opcuaDebugSessionCallFunc w ⟨some name, level⟩).output = w.output ∧
    ∀ other, other ≠ name →
      findSession other (opcuaDebugSessionCallFunc w ⟨some name, level⟩).sessions
        = findSession other w.sessions := by
  have hname := findSession_name hfind
  simp only [opcuaDebugSessionCallFunc, hfind]
  refine ⟨findSession_storeSession hfind hname, trivial, fun other hne => ?_⟩
  exact findSession_storeSession_other hname hne

/-- Witness for C10 (amended): level `-1` on session `S2` of `demoWorld`. -/
theorem debugSession_sets_level_witness :
    findSession "S2" demoWorld.sessions
      = some ⟨"S2", 0, false, ["http://opcfoundation.org/UA/", "urn:a"], [], [none, none]⟩ ∧
    findSession "S2" (opcuaDebugSessionCallFunc demoWorld ⟨some "S2", -1⟩).sessions
      = some ⟨"S2", -1, false, ["http://opcfoundation.org/UA/", "urn:a"], [], [none, none]⟩ ∧
    (opcuaDebugSessionCallFunc demoWorld ⟨some "S2", -1⟩).output = demoWorld.output ∧
    findSession "S1" (opcuaDebugSessionCallFunc demoWorld ⟨some "S2", -1⟩).sessions
      = findSession "S1" demoWorld.sessions :=
  ⟨by decide,
    (debugSession_sets_level demoWorld "S2" (-1)
      ⟨"S2", 0, false, ["http://opcfoundation.org/UA/", "urn:a"], [], [none, none]⟩
      (by decide)).1,
    (debugSession_sets_level demoWorld "S2" (-1)
      ⟨"S2", 0, false, ["http://opcfoundation.org/UA/", "urn:a"], [], [none, none]⟩
      (by decide)).2.1,
    (debugSession_sets_level demoWorld "S2" (-1)
      ⟨"S2", 0, false, ["http://opcfoundation.org/UA/", "urn:a"], [], [none, none]⟩
      (by decide)).2.2 "S1" (by decide)⟩

end DevOpcua
